import Mathlib

/-!
Shallow embedding of the wgpu-hartree-fock-2d repository (src/lib.rs,
src/buff_utils.rs, src/main.rs): the generic device/staging buffer pair
`BufferInfo`, its asynchronous transfer protocol, and the three-stage
compute dispatch orchestrator.

Modelling conventions:
* wgpu `BufferUsages` bitflags are `Nat` bitmasks with the bit values of
  `wgpu_types` (`MAP_READ = 1 << 0`, …, `STORAGE = 1 << 7`).
* The wgpu device is modelled as the ordered log of buffers it has created;
  `create_buffer` appends to the log and hands back a buffer whose `id` is
  its creation index.
* Rust panics (`panic!`, `unwrap`, the length check inside
  `copy_from_slice`) and recoverable `Err` returns are both modelled with
  `Except`; the distinct error constructors keep them apart.
* The asynchronous driver callback of `map_async` is an oracle input:
  `none` models a successful mapping, `some e` models the driver reporting
  `wgpu::BufferAsyncError` `e`.
* Host-visible steps (mapping requests, device polls, rendezvous receives,
  copies, unmaps, queue submissions) are recorded in an event trace so that
  ordering claims are statable.
* `f32` values are modelled as `ℚ`; the numeric content of the GPU kernels
  and of the host-side lattice-geometry precomputation is opaque per the
  spec, so device-side results enter the model as oracle data.
-/

namespace HartreeFock

/-! ### wgpu buffer usage flags (bit values from wgpu_types) -/

namespace BufferUsages

def MAP_READ : Nat := 1
def MAP_WRITE : Nat := 2
def COPY_SRC : Nat := 4
def COPY_DST : Nat := 8
def UNIFORM : Nat := 64
def STORAGE : Nat := 128

end BufferUsages

/-- bitflags `contains`: every bit of `f` is set in `u`. -/
def usageContains (u f : Nat) : Bool := u &&& f == f

/-! ### Buffers and the device creation log -/

/-- A created wgpu buffer: creation index, label, byte size, usage flags.
`mapped_at_creation` is false for every buffer this program creates. -/
structure Buffer where
  id : Nat
  label : Option String
  size : Nat
  usage : Nat
deriving DecidableEq, Repr

/-- The device, modelled as the ordered log of buffers created on it. -/
structure Device where
  buffers : List Buffer
deriving DecidableEq, Repr

/-- Model of `device.create_buffer`: appends a fresh buffer to the creation log. -/
def Device.create_buffer (d : Device) (label : Option String) (size : Nat)
    (usage : Nat) : Buffer × Device :=
  let b : Buffer := ⟨d.buffers.length, label, size, usage⟩
  (b, ⟨d.buffers ++ [b]⟩)

/-- Model of `wgpu::util::DeviceExt::create_buffer_init` (used once, for the
system-info uniform buffer): same creation log effect. -/
def Device.create_buffer_init (d : Device) (label : Option String)
    (size : Nat) (usage : Nat) : Buffer × Device :=
  d.create_buffer label size usage

/-! ### BufferInfo construction (buff_utils.rs, `BufferInfo::new`) -/

/-- The `panic!("Invalid buffer usage")` outcome of `BufferInfo::new` and
of the binding-descriptor methods. -/
inductive ConstructionError where
  | invalidUsage
deriving DecidableEq, Repr

/-- Model of `BufferInfo<NUM_T, T>`: the fields the host logic reads.  `num_t` and
`sizeof_t` carry the const generic `NUM_T` and `size_of::<T>()`. -/
structure BufferInfo where
  num_t : Nat
  sizeof_t : Nat
  usage : Nat
  shader_buffer : Buffer
  shader_buffer_label : Option String
  staging_buffer : Buffer
  staging_buffer_label : Option String
  binding : Nat
deriving DecidableEq, Repr

/-- Model of `BufferInfo::new` (buff_utils.rs lines 12–58): derives the shader and
staging usages from the intent, panicking on any other usage BEFORE either
buffer is created, then creates the shader buffer and the staging buffer,
in that order. -/
def BufferInfo.new (num_t sizeof_t : Nat) (device : Device)
    (label : Option String) (binding : Nat) (usage : Nat) :
    Except ConstructionError BufferInfo × Device :=
  let shader_buffer_label := label.map (fun s => s ++ " Shader Buffer")
  if usageContains usage BufferUsages.STORAGE then
    let shader_buf_usage := BufferUsages.STORAGE ||| BufferUsages.COPY_SRC
    let staging_buf_usage := BufferUsages.COPY_DST ||| BufferUsages.MAP_READ
    let buff_size := num_t * sizeof_t
    let p1 := device.create_buffer shader_buffer_label buff_size shader_buf_usage
    let staging_buffer_label := label.map (fun s => s ++ " Staging Buffer")
    let p2 := p1.2.create_buffer staging_buffer_label buff_size staging_buf_usage
    (Except.ok ⟨num_t, sizeof_t, usage, p1.1, shader_buffer_label,
      p2.1, staging_buffer_label, binding⟩, p2.2)
  else if usageContains usage BufferUsages.UNIFORM then
    let shader_buf_usage := BufferUsages.UNIFORM ||| BufferUsages.COPY_DST
    let staging_buf_usage := BufferUsages.COPY_SRC ||| BufferUsages.MAP_WRITE
    let buff_size := num_t * sizeof_t
    let p1 := device.create_buffer shader_buffer_label buff_size shader_buf_usage
    let staging_buffer_label := label.map (fun s => s ++ " Staging Buffer")
    let p2 := p1.2.create_buffer staging_buffer_label buff_size staging_buf_usage
    (Except.ok ⟨num_t, sizeof_t, usage, p1.1, shader_buffer_label,
      p2.1, staging_buffer_label, binding⟩, p2.2)
  else
    (Except.error ConstructionError.invalidUsage, device)

/-! ### Binding descriptors -/

inductive BufferBindingType where
  | Storage (read_only : Bool)
  | Uniform
deriving DecidableEq, Repr

inductive ShaderStages where
  | COMPUTE
deriving DecidableEq, Repr

/-- Model of `wgpu::BindGroupLayoutEntry` restricted to the buffer binding case the
program uses. -/
structure BindGroupLayoutEntry where
  binding : Nat
  visibility : ShaderStages
  ty : BufferBindingType
  has_dynamic_offset : Bool
  min_binding_size : Option Nat
deriving DecidableEq, Repr

/-- Model of `BufferInfo::get_bind_group_layout_entry` (buff_utils.rs lines 59–77).
The `panic!` on an invalid usage is the `Except.error` case. -/
def BufferInfo.get_bind_group_layout_entry (self : BufferInfo) :
    Except ConstructionError BindGroupLayoutEntry :=
  if usageContains self.usage BufferUsages.STORAGE then
    Except.ok ⟨self.binding, ShaderStages.COMPUTE,
      BufferBindingType.Storage false, false, none⟩
  else if usageContains self.usage BufferUsages.UNIFORM then
    Except.ok ⟨self.binding, ShaderStages.COMPUTE,
      BufferBindingType.Uniform, false, none⟩
  else
    Except.error ConstructionError.invalidUsage

/-- Model of `wgpu::BindGroupEntry`: the resource is the entire shader buffer,
identified by its creation id. -/
structure BindGroupEntry where
  binding : Nat
  resource : Nat
deriving DecidableEq, Repr

/-- Model of `BufferInfo::get_bind_group_entry` (buff_utils.rs lines 78–83). -/
def BufferInfo.get_bind_group_entry (self : BufferInfo) : BindGroupEntry :=
  ⟨self.binding, self.shader_buffer.id⟩

/-! ### Recorded commands and host events -/

/-- Commands recorded into a `wgpu::CommandEncoder`; a compute pass is
flattened into its begin/set/dispatch/end records in recording order. -/
inductive Command where
  | copyBufferToBuffer (src srcOffset dst dstOffset size : Nat)
  | beginComputePass
  | setPipeline (entry_point : Option String)
  | setBindGroup (index : Nat)
  | dispatchWorkgroups (x y z : Nat)
  | endComputePass
deriving DecidableEq, Repr

inductive MapMode where
  | Read
  | Write
deriving DecidableEq, Repr

/-- Host-visible steps of the transfer protocol and the dispatch loop, in
the order the host performs them. -/
inductive HostEvent where
  /-- Event of `buffer_slice.map_async(mode, callback)` being issued. -/
  | mapAsyncRequested (mode : MapMode)
  /-- Event of `device.poll(wgpu::Maintain::Wait)`: unconditional device wait. -/
  | devicePollWait
  /-- Event of `receiver.recv_async().await` returning on the single-slot channel. -/
  | rendezvousReceived
  /-- bytes copied from host data into the mapped staging region. -/
  | copyIntoMapped
  /-- bytes copied out of the mapped staging region into host memory. -/
  | copyFromMapped
  /-- Event of `staging_buffer.unmap()`. -/
  | unmap
  /-- a staging→device copy recorded into the command encoder of the caller. -/
  | recordStagingToDeviceCopy
  /-- Event of `queue.submit(...)` on one finished command encoder. -/
  | submitCalled
deriving DecidableEq, Repr

/-- Model of `wgpu::BufferAsyncError`: opaque driver-reported mapping failure. -/
inductive BufferAsyncError where
  | mk
deriving DecidableEq, Repr

/-- How a transfer operation fails: `MapFailed` is the `Err` value returned
when the driver callback reports a mapping error; `SizeMismatch` is the
panic raised by `copy_from_slice` when the byte lengths disagree. -/
inductive TransferError where
  | MapFailed (e : BufferAsyncError)
  | SizeMismatch
deriving DecidableEq, Repr

/-- Outcome of `BufferInfo::set_uniform_buffer`: the result, the staging
buffer contents after the call, the command encoder of the caller after the
call, and the host event trace of the call. -/
structure UniformWriteOut (T : Type) where
  result : Except TransferError Unit
  staging : List T
  encoder : List Command
  events : List HostEvent
deriving Repr

/-- Model of `BufferInfo::copy_to_staging_buffer` (buff_utils.rs lines 84–92):
records a full-size device→staging copy into the encoder. -/
def BufferInfo.copy_to_staging_buffer (self : BufferInfo)
    (command_encoder : List Command) : List Command :=
  command_encoder ++ [Command.copyBufferToBuffer self.shader_buffer.id 0
    self.staging_buffer.id 0 (self.num_t * self.sizeof_t)]

/-- Model of `BufferInfo::set_uniform_buffer` (buff_utils.rs lines 93–120).

Steps, in source order: slice the staging buffer, create a bounded(1)
flume channel, `map_async(Write, …)` with a callback that sends the driver
result into the channel, `device.poll(Maintain::wait())`, await the
channel and `?`-propagate a driver error, copy `data` into the mapped
range (`copy_from_slice` panics on byte-length mismatch before writing
anything), unmap, record a staging→device copy into the encoder of the caller.

`driverResult` is the value the driver passes to the callback
(`none` = `Ok(())`). -/
def BufferInfo.set_uniform_buffer {T : Type} (self : BufferInfo)
    (driverResult : Option BufferAsyncError) (command_encoder : List Command)
    (staging : List T) (data : List T) : UniformWriteOut T :=
  let ev0 := [HostEvent.mapAsyncRequested MapMode.Write,
    HostEvent.devicePollWait, HostEvent.rendezvousReceived]
  match driverResult with
  | some e => ⟨Except.error (TransferError.MapFailed e), staging,
      command_encoder, ev0⟩
  | none =>
    if data.length * self.sizeof_t == self.num_t * self.sizeof_t then
      ⟨Except.ok (), data,
        command_encoder ++ [Command.copyBufferToBuffer self.staging_buffer.id 0
          self.shader_buffer.id 0 (self.num_t * self.sizeof_t)],
        ev0 ++ [HostEvent.copyIntoMapped, HostEvent.unmap,
          HostEvent.recordStagingToDeviceCopy]⟩
    else
      ⟨Except.error TransferError.SizeMismatch, staging, command_encoder, ev0⟩

/-- Model of `BufferInfo::read_staging_buffer` (buff_utils.rs lines 121–140).

Allocates `vec![T::zeroed(); NUM_T]`, maps the staging buffer for reading
through the same rendezvous protocol, copies the mapped bytes into the
local vector (`copy_from_slice` panics on length mismatch), unmaps and
returns the vector.  `staging` is the element contents of the staging buffer
when the mapping resolves. -/
def BufferInfo.read_staging_buffer {T : Type} (self : BufferInfo)
    (driverResult : Option BufferAsyncError) (staging : List T) :
    Except TransferError (List T) × List HostEvent :=
  let ev0 := [HostEvent.mapAsyncRequested MapMode.Read,
    HostEvent.devicePollWait, HostEvent.rendezvousReceived]
  match driverResult with
  | some e => (Except.error (TransferError.MapFailed e), ev0)
  | none =>
    if staging.length == self.num_t then
      (Except.ok staging,
        ev0 ++ [HostEvent.copyFromMapped, HostEvent.unmap])
    else
      (Except.error TransferError.SizeMismatch, ev0)

/-! ### The orchestrator (lib.rs) -/

/-- Value of `size_of::<SystemInfo>()`: four `[f32; 2]` plus six `f32`. -/
def sizeof_SystemInfo : Nat := 56

/-- Value of `size_of::<[f32; 2]>()`. -/
def sizeof_KValue : Nat := 8

/-- Value of `size_of::<H2x2>()`: `[[f32; 2]; 4]`. -/
def sizeof_H2x2 : Nat := 32

/-- Value of `size_of::<EigenInfo>()`: `k_value` 8 + `eigenvalues` 8 +
`eigenvectors` 32 bytes. -/
def sizeof_EigenInfo : Nat := 48

/-- Value of `size_of::<f32>()`. -/
def sizeof_f32 : Nat := 4

/-- Model of `wgpu::ComputePipeline`: the pipeline layout (list of bind group
layouts), the shader module, and the entry point. -/
structure ComputePipeline where
  layout : List (List BindGroupLayoutEntry)
  module : String
  entry_point : Option String
deriving DecidableEq, Repr

/-- Model of `WgpuContext` (lib.rs lines 181–194), extended with the fields the
model tracks (`system_info_buffer`, `bind_group_layout`). -/
structure WgpuContext where
  device : Device
  system_info_buffer : Buffer
  k_grid_pipeline : ComputePipeline
  bind_group_layout : List BindGroupLayoutEntry
  bind_group : List BindGroupEntry
  k_values_buf_info : BufferInfo
  hamiltonian_buf_info : BufferInfo
  energy_eigen_buf_info : BufferInfo
  chem_potential_guess_buf_info : BufferInfo
  charge_density_buf_info : BufferInfo
  initial_eigen_pipeline : ComputePipeline
  calc_charge_density_pipeline : ComputePipeline
deriving Repr

/-- Adapter around `BufferInfo.new` giving it an `Except`-monadic shape:
a construction panic aborts the whole `WgpuContext::new`. -/
def newBufferPair (num_t sizeof_t : Nat) (device : Device)
    (label : Option String) (binding : Nat) (usage : Nat) :
    Except ConstructionError (BufferInfo × Device) :=
  match BufferInfo.new num_t sizeof_t device label binding usage with
  | (Except.ok info, d) => Except.ok (info, d)
  | (Except.error e, _) => Except.error e

/-- Model of `WgpuContext::new` (lib.rs lines 197–354): creates the system-info
uniform buffer, the five `BufferInfo` pairs at bindings 1–5, the shared
six-entry bind group layout (slot 0 written inline for the system-info
buffer), the bind group, and the three compute pipelines sharing one
pipeline layout and shader module and differing only in entry point. -/
def WgpuContext.new : Except ConstructionError WgpuContext := do
  let device : Device := ⟨[]⟩
  let p0 := device.create_buffer_init (some "System Info Buffer")
    sizeof_SystemInfo BufferUsages.UNIFORM
  let system_info_buffer := p0.1
  let device := p0.2
  let (k_values_buf_info, device) ← newBufferPair (512 * 512) sizeof_KValue
    device (some "K Values") 1 BufferUsages.STORAGE
  let (hamiltonian_buf_info, device) ← newBufferPair (512 * 512) sizeof_H2x2
    device (some "Hamiltonian") 2 BufferUsages.STORAGE
  let (energy_eigen_buf_info, device) ← newBufferPair (512 * 512)
    sizeof_EigenInfo device (some "Eigen Info") 3 BufferUsages.STORAGE
  let (chem_potential_guess_buf_info, device) ← newBufferPair 1 sizeof_f32
    device (some "Chem Potential Guess") 4 BufferUsages.UNIFORM
  let (charge_density_buf_info, device) ← newBufferPair (512 * 512) sizeof_f32
    device (some "Result Charge Density") 5 BufferUsages.STORAGE
  let e1 ← k_values_buf_info.get_bind_group_layout_entry
  let e2 ← hamiltonian_buf_info.get_bind_group_layout_entry
  let e3 ← energy_eigen_buf_info.get_bind_group_layout_entry
  let e4 ← chem_potential_guess_buf_info.get_bind_group_layout_entry
  let e5 ← charge_density_buf_info.get_bind_group_layout_entry
  let bind_group_layout : List BindGroupLayoutEntry :=
    [⟨0, ShaderStages.COMPUTE, BufferBindingType.Uniform, false, none⟩,
     e1, e2, e3, e4, e5]
  let bind_group : List BindGroupEntry :=
    [⟨0, system_info_buffer.id⟩,
     k_values_buf_info.get_bind_group_entry,
     hamiltonian_buf_info.get_bind_group_entry,
     energy_eigen_buf_info.get_bind_group_entry,
     chem_potential_guess_buf_info.get_bind_group_entry,
     charge_density_buf_info.get_bind_group_entry]
  let pipeline_layout := [bind_group_layout]
  let k_grid_pipeline : ComputePipeline :=
    ⟨pipeline_layout, "shader.wgsl", some "compute_k_grid"⟩
  let initial_eigen_pipeline : ComputePipeline :=
    ⟨pipeline_layout, "shader.wgsl", some "calc_initial_eigen"⟩
  let calc_charge_density_pipeline : ComputePipeline :=
    ⟨pipeline_layout, "shader.wgsl", some "calc_charge_density"⟩
  Except.ok ⟨device, system_info_buffer, k_grid_pipeline, bind_group_layout,
    bind_group, k_values_buf_info, hamiltonian_buf_info,
    energy_eigen_buf_info, chem_potential_guess_buf_info,
    charge_density_buf_info, initial_eigen_pipeline,
    calc_charge_density_pipeline⟩

/-- Outcome of one synchronous dispatch stage: the submitted command
sequence and the host event trace. -/
structure StageRun where
  submitted : List Command
  events : List HostEvent
deriving Repr

/-- Model of `calc_k_grid` (lib.rs lines 99–119): record one compute pass
(dispatch 32×32×1), submit the encoder once, then
`device.poll(Maintain::Wait)`. -/
def calc_k_grid (context : WgpuContext) : StageRun :=
  let command_encoder : List Command := []
  let command_encoder := command_encoder ++
    [Command.beginComputePass,
     Command.setPipeline context.k_grid_pipeline.entry_point,
     Command.setBindGroup 0,
     Command.dispatchWorkgroups 32 32 1,
     Command.endComputePass]
  ⟨command_encoder, [HostEvent.submitCalled, HostEvent.devicePollWait]⟩

/-- Model of `calc_initial_eigen` (lib.rs lines 121–141): same shape as
`calc_k_grid` with the eigensolve pipeline. -/
def calc_initial_eigen (context : WgpuContext) : StageRun :=
  let command_encoder : List Command := []
  let command_encoder := command_encoder ++
    [Command.beginComputePass,
     Command.setPipeline context.initial_eigen_pipeline.entry_point,
     Command.setBindGroup 0,
     Command.dispatchWorkgroups 32 32 1,
     Command.endComputePass]
  ⟨command_encoder, [HostEvent.submitCalled, HostEvent.devicePollWait]⟩

/-- Oracle for the opaque device/driver behaviour during the density
stage: the driver results handed to the two `map_async` callbacks, the
chem-potential staging contents before the write, and the ChargeDensity
staging contents once its device→staging copy has executed. -/
structure DeviceOracle where
  writeMapResult : Option BufferAsyncError
  readMapResult : Option BufferAsyncError
  chemStagingBefore : List ℚ
  chargeStagingAfterSubmit : List ℚ
deriving Repr

/-- A panic aborting the run: an `unwrap` on a failed transfer, or a
construction panic inside `WgpuContext::new`. -/
inductive RunPanic where
  | unwrapFailed (e : TransferError)
  | constructionFailed (e : ConstructionError)
deriving DecidableEq, Repr

/-- Outcome of `get_charge_density`: the returned density array (or the
panic), the submitted command sequence, and the host event trace. -/
structure ChargeDensityRun where
  result : Except RunPanic (List ℚ)
  submitted : List Command
  events : List HostEvent
deriving Repr

/-- Model of `get_charge_density` (lib.rs lines 143–178): one command encoder;
`set_uniform_buffer` of `[chem_potential]` on the ChemicalPotential pair
(`unwrap` panics on error, ending the run before anything is submitted);
then the density compute pass (dispatch 32×32×1); then
`copy_to_staging_buffer` for ChargeDensity; one `queue.submit`; then
`read_staging_buffer` (`unwrap` panics on error). -/
def get_charge_density (context : WgpuContext) (oracle : DeviceOracle)
    (chem_potential : ℚ) : ChargeDensityRun :=
  let command_encoder : List Command := []
  let w := context.chem_potential_guess_buf_info.set_uniform_buffer
    oracle.writeMapResult command_encoder oracle.chemStagingBefore
    [chem_potential]
  match w.result with
  | Except.error e => ⟨Except.error (RunPanic.unwrapFailed e), [], w.events⟩
  | Except.ok _ =>
    let command_encoder := w.encoder
    let command_encoder := command_encoder ++
      [Command.beginComputePass,
       Command.setPipeline context.calc_charge_density_pipeline.entry_point,
       Command.setBindGroup 0,
       Command.dispatchWorkgroups 32 32 1,
       Command.endComputePass]
    let command_encoder :=
      context.charge_density_buf_info.copy_to_staging_buffer command_encoder
    let events := w.events ++ [HostEvent.submitCalled]
    let r := context.charge_density_buf_info.read_staging_buffer
      oracle.readMapResult oracle.chargeStagingAfterSubmit
    ⟨(match r.1 with
      | Except.ok v => Except.ok v
      | Except.error e => Except.error (RunPanic.unwrapFailed e)),
     command_encoder, events ++ r.2⟩

/-- One line of host-observable output.  The numeric payload of the
`{:?}` debug print of `SYSTEM_INFO` is host-side lattice-geometry
precomputation, out of scope per the spec, so the line carries none. -/
inductive OutputLine where
  | systemConfigHeader
  | systemConfigDebug
  | numKPoints (n : Nat)
  | tryingChemPotential (mu : ℚ)
  | chargeDensity (d : ℚ)
deriving DecidableEq, Repr

/-- Outcome of `run`: everything printed, whether the run completed or
aborted in a panic, and the host event trace of the three stages in the
order they execute. -/
structure RunOut where
  output : List OutputLine
  result : Except RunPanic Unit
  events : List HostEvent
deriving Repr

/-- Model of `run` (lib.rs lines 52–67): print the system config, build the
context, run the three stages with `chem_potential = 0.0`, reduce the
density array to its arithmetic mean, and print the count of k points,
the chemical potential tried, and the mean charge density. -/
def run (oracle : DeviceOracle) : RunOut :=
  let out0 := [OutputLine.systemConfigHeader, OutputLine.systemConfigDebug]
  match WgpuContext.new with
  | Except.error e => ⟨out0, Except.error (RunPanic.constructionFailed e), []⟩
  | Except.ok context =>
    let s1 := calc_k_grid context
    let s2 := calc_initial_eigen context
    let chem_potential : ℚ := 0
    let g := get_charge_density context oracle chem_potential
    match g.result with
    | Except.error p =>
      ⟨out0, Except.error p, s1.events ++ s2.events ++ g.events⟩
    | Except.ok density_arr =>
      let density := density_arr.sum / (density_arr.length : ℚ)
      ⟨out0 ++ [OutputLine.numKPoints density_arr.length,
        OutputLine.tryingChemPotential chem_potential,
        OutputLine.chargeDensity density], Except.ok (),
       s1.events ++ s2.events ++ g.events⟩

/-! ### Shared helper definitions -/

/-- The context `WgpuContext::new` constructs; construction succeeds by
computation (see `wgpu_new_eq`). -/
def theContext : WgpuContext :=
  match h : WgpuContext.new with
  | Except.ok c => c
  | Except.error _ => Except.noConfusion h

/-- Oracle of a fully successful density stage: both mappings succeed and
the submitted copy fills the ChargeDensity staging buffer with one value
per grid point. -/
def oracle0 : DeviceOracle := ⟨none, none, [], List.replicate (512 * 512) 0⟩

/-- Formalization of the density-stage ordering asserted by the spec:
between every submission and every later read-mapping request, the host
performs an unconditional device wait. -/
def waitSeparatesSubmitFromRead (evs : List HostEvent) : Prop :=
  ∀ i, i < evs.length → evs.get? i = some HostEvent.submitCalled →
    ∀ j, j < evs.length → i < j →
      evs.get? j = some (HostEvent.mapAsyncRequested MapMode.Read) →
      ∃ k, i < k ∧ k < j ∧ evs.get? k = some HostEvent.devicePollWait

/-- Formalization of the output claim as stated: every printed line is one
of the three report lines (count of k points, chemical potential tried,
mean charge density). -/
def onlyReportLines (out : List OutputLine) : Prop :=
  ∀ l ∈ out, (∃ n, l = OutputLine.numKPoints n) ∨
    (∃ mu, l = OutputLine.tryingChemPotential mu) ∨
    (∃ d, l = OutputLine.chargeDensity d)

/-! ### Shared helper lemmas -/

/-- Building the context never hits the construction panic. -/
theorem wgpu_new_eq : WgpuContext.new = Except.ok theContext := rfl

/-- Successful `read_staging_buffer`: when the driver reports success and
the staging contents span the full element count, the call returns exactly
the staging contents with the read-protocol trace. -/
theorem read_staging_ok {T : Type} (info : BufferInfo) (staging : List T)
    (h : staging.length = info.num_t) :
    info.read_staging_buffer none staging =
      (Except.ok staging,
       [HostEvent.mapAsyncRequested MapMode.Read, HostEvent.devicePollWait,
        HostEvent.rendezvousReceived, HostEvent.copyFromMapped,
        HostEvent.unmap]) := by
  simp [BufferInfo.read_staging_buffer, h]

/-- Outcome of `read_staging_buffer` inverted: a successful return is the
staging contents, which span the full element count. -/
theorem read_ok_inv {T : Type} (info : BufferInfo)
    (dr : Option BufferAsyncError) (staging v : List T)
    (h : (info.read_staging_buffer dr staging).1 = Except.ok v) :
    v = staging ∧ staging.length = info.num_t := by
  cases dr with
  | some e => exact absurd h (by simp [BufferInfo.read_staging_buffer])
  | none =>
    by_cases hl : staging.length = info.num_t
    · rw [read_staging_ok info staging hl] at h
      exact ⟨(Except.ok.injEq _ _ ▸ h).symm, hl⟩
    · refine absurd h ?_
      simp [BufferInfo.read_staging_buffer, hl]

/-- The command sequence the density stage submits, independent of the
read-side driver behaviour and of the device results. -/
theorem get_cd_submitted (r : Option BufferAsyncError) (cb ca : List ℚ)
    (mu : ℚ) :
    (get_charge_density theContext ⟨none, r, cb, ca⟩ mu).submitted =
      [Command.copyBufferToBuffer
         theContext.chem_potential_guess_buf_info.staging_buffer.id 0
         theContext.chem_potential_guess_buf_info.shader_buffer.id 0
         (1 * sizeof_f32),
       Command.beginComputePass,
       Command.setPipeline (some "calc_charge_density"),
       Command.setBindGroup 0,
       Command.dispatchWorkgroups 32 32 1,
       Command.endComputePass,
       Command.copyBufferToBuffer
         theContext.charge_density_buf_info.shader_buffer.id 0
         theContext.charge_density_buf_info.staging_buffer.id 0
         (512 * 512 * sizeof_f32)] := rfl

/-- Full outcome of a successful density stage on an array covering every
grid point. -/
theorem get_cd_ok (cb arr : List ℚ) (mu : ℚ) (h : arr.length = 262144) :
    get_charge_density theContext ⟨none, none, cb, arr⟩ mu =
      ⟨Except.ok arr,
       [Command.copyBufferToBuffer 8 0 7 0 4,
        Command.beginComputePass,
        Command.setPipeline (some "calc_charge_density"),
        Command.setBindGroup 0,
        Command.dispatchWorkgroups 32 32 1,
        Command.endComputePass,
        Command.copyBufferToBuffer 9 0 10 0 1048576],
       [HostEvent.mapAsyncRequested MapMode.Write, HostEvent.devicePollWait,
        HostEvent.rendezvousReceived, HostEvent.copyIntoMapped,
        HostEvent.unmap, HostEvent.recordStagingToDeviceCopy,
        HostEvent.submitCalled,
        HostEvent.mapAsyncRequested MapMode.Read, HostEvent.devicePollWait,
        HostEvent.rendezvousReceived, HostEvent.copyFromMapped,
        HostEvent.unmap]⟩ := by
  show (⟨(match (theContext.charge_density_buf_info.read_staging_buffer
            none arr).1 with
          | Except.ok v => Except.ok v
          | Except.error e => Except.error (RunPanic.unwrapFailed e)),
         [Command.copyBufferToBuffer 8 0 7 0 4,
          Command.beginComputePass,
          Command.setPipeline (some "calc_charge_density"),
          Command.setBindGroup 0,
          Command.dispatchWorkgroups 32 32 1,
          Command.endComputePass,
          Command.copyBufferToBuffer 9 0 10 0 1048576],
         [HostEvent.mapAsyncRequested MapMode.Write, HostEvent.devicePollWait,
          HostEvent.rendezvousReceived, HostEvent.copyIntoMapped,
          HostEvent.unmap, HostEvent.recordStagingToDeviceCopy,
          HostEvent.submitCalled] ++
           (theContext.charge_density_buf_info.read_staging_buffer
             none arr).2⟩ :
       ChargeDensityRun) = _
  rw [read_staging_ok theContext.charge_density_buf_info arr (h.trans rfl)]
  rfl

/-- Full outcome of a successful run on an array covering every grid
point. -/
theorem run_ok (cb arr : List ℚ) (h : arr.length = 262144) :
    run ⟨none, none, cb, arr⟩ =
      ⟨[OutputLine.systemConfigHeader, OutputLine.systemConfigDebug,
        OutputLine.numKPoints arr.length,
        OutputLine.tryingChemPotential 0,
        OutputLine.chargeDensity (arr.sum / (arr.length : ℚ))],
       Except.ok (),
       [HostEvent.submitCalled, HostEvent.devicePollWait,
        HostEvent.submitCalled, HostEvent.devicePollWait,
        HostEvent.mapAsyncRequested MapMode.Write, HostEvent.devicePollWait,
        HostEvent.rendezvousReceived, HostEvent.copyIntoMapped,
        HostEvent.unmap, HostEvent.recordStagingToDeviceCopy,
        HostEvent.submitCalled,
        HostEvent.mapAsyncRequested MapMode.Read, HostEvent.devicePollWait,
        HostEvent.rendezvousReceived, HostEvent.copyFromMapped,
        HostEvent.unmap]⟩ := by
  show (match (get_charge_density theContext ⟨none, none, cb, arr⟩ 0).result
          with
        | Except.error p =>
          (⟨[OutputLine.systemConfigHeader, OutputLine.systemConfigDebug],
            Except.error p,
            [HostEvent.submitCalled, HostEvent.devicePollWait,
             HostEvent.submitCalled, HostEvent.devicePollWait] ++
              (get_charge_density theContext ⟨none, none, cb, arr⟩ 0).events⟩ :
            RunOut)
        | Except.ok density_arr =>
          ⟨[OutputLine.systemConfigHeader, OutputLine.systemConfigDebug,
            OutputLine.numKPoints density_arr.length,
            OutputLine.tryingChemPotential 0,
            OutputLine.chargeDensity
              (density_arr.sum / (density_arr.length : ℚ))],
           Except.ok (),
           [HostEvent.submitCalled, HostEvent.devicePollWait,
            HostEvent.submitCalled, HostEvent.devicePollWait] ++
             (get_charge_density theContext ⟨none, none, cb, arr⟩ 0).events⟩) =
      _
  rw [get_cd_ok cb arr 0 h]
  rfl

/-- Derived Storage device-buffer flags do not include uniform binding. -/
theorem storage_shader_no_uniform_flag :
    usageContains (BufferUsages.STORAGE ||| BufferUsages.COPY_SRC)
      BufferUsages.UNIFORM = false := by decide

/-- Derived Storage staging-buffer flags do not include write-mapping. -/
theorem storage_staging_no_write_flag :
    usageContains (BufferUsages.COPY_DST ||| BufferUsages.MAP_READ)
      BufferUsages.MAP_WRITE = false := by decide

/-- Derived Uniform device-buffer flags do not include storage binding. -/
theorem uniform_shader_no_storage_flag :
    usageContains (BufferUsages.UNIFORM ||| BufferUsages.COPY_DST)
      BufferUsages.STORAGE = false := by decide

/-- Derived Uniform staging-buffer flags do not include read-mapping. -/
theorem uniform_staging_no_read_flag :
    usageContains (BufferUsages.COPY_SRC ||| BufferUsages.MAP_WRITE)
      BufferUsages.MAP_READ = false := by decide

/-! ### Claim theorems -/

/-- Claim C1: For every element count, element size, device state, label and
binding slot: constructing a `BufferInfo` with `Storage` intent yields a
device (shader) buffer whose usage flags are exactly
`STORAGE ||| COPY_SRC` and a staging buffer with exactly
`COPY_DST ||| MAP_READ`; with `Uniform` intent, exactly
`UNIFORM ||| COPY_DST` and `COPY_SRC ||| MAP_WRITE`.  In particular the
Storage device buffer is incapable of uniform binding and its staging
buffer is incapable of write-mapping, and symmetrically a Uniform device
buffer is incapable of storage binding and its staging buffer of
read-mapping. -/
theorem storage_uniform_usage_flags (num_t sizeof_t : Nat) (device : Device)
    (label : Option String) (binding : Nat) :
    (∃ info,
      (BufferInfo.new num_t sizeof_t device label binding
        BufferUsages.STORAGE).1 = Except.ok info ∧
      info.shader_buffer.usage =
        (BufferUsages.STORAGE ||| BufferUsages.COPY_SRC) ∧
      info.staging_buffer.usage =
        (BufferUsages.COPY_DST ||| BufferUsages.MAP_READ) ∧
      usageContains info.shader_buffer.usage BufferUsages.UNIFORM = false ∧
      usageContains info.staging_buffer.usage BufferUsages.MAP_WRITE
        = false) ∧
    (∃ info,
      (BufferInfo.new num_t sizeof_t device label binding
        BufferUsages.UNIFORM).1 = Except.ok info ∧
      info.shader_buffer.usage =
        (BufferUsages.UNIFORM ||| BufferUsages.COPY_DST) ∧
      info.staging_buffer.usage =
        (BufferUsages.COPY_SRC ||| BufferUsages.MAP_WRITE) ∧
      usageContains info.shader_buffer.usage BufferUsages.STORAGE = false ∧
      usageContains info.staging_buffer.usage BufferUsages.MAP_READ
        = false) :=
  ⟨⟨_, rfl, rfl, rfl, storage_shader_no_uniform_flag,
    storage_staging_no_write_flag⟩,
   ⟨_, rfl, rfl, rfl, uniform_shader_no_storage_flag,
    uniform_staging_no_read_flag⟩⟩

/-- Claim C7: A `set_uniform_buffer` call whose data has the wrong byte
length fails with the `SizeMismatch` panic (when the mapping itself
succeeded, which is when the length check runs), and under every driver
result the staging contents and the command encoder are left untouched:
no partial copy happens. -/
theorem size_mismatch_no_partial_copy (T : Type) (info : BufferInfo)
    (encoder : List Command) (staging data : List T)
    (h : data.length * info.sizeof_t ≠ info.num_t * info.sizeof_t) :
    (info.set_uniform_buffer none encoder staging data =
      ⟨Except.error TransferError.SizeMismatch, staging, encoder,
       [HostEvent.mapAsyncRequested MapMode.Write, HostEvent.devicePollWait,
        HostEvent.rendezvousReceived]⟩) ∧
    (∀ dr : Option BufferAsyncError,
      (info.set_uniform_buffer dr encoder staging data).staging = staging ∧
      (info.set_uniform_buffer dr encoder staging data).encoder
        = encoder) := by
  constructor
  · simp [BufferInfo.set_uniform_buffer, h]
  · intro dr
    cases dr with
    | some e => exact ⟨rfl, rfl⟩
    | none => constructor <;> simp [BufferInfo.set_uniform_buffer, h]

/-- Witness for C7: writing an empty array into the one-element
ChemicalPotential pair is a byte-length mismatch and changes nothing. -/
theorem size_mismatch_no_partial_copy_witness :
    ([] : List ℚ).length * theContext.chem_potential_guess_buf_info.sizeof_t
      ≠ theContext.chem_potential_guess_buf_info.num_t *
        theContext.chem_potential_guess_buf_info.sizeof_t ∧
    theContext.chem_potential_guess_buf_info.set_uniform_buffer none
      [Command.beginComputePass] [(7 : ℚ)] [] =
      ⟨Except.error TransferError.SizeMismatch, [(7 : ℚ)],
       [Command.beginComputePass],
       [HostEvent.mapAsyncRequested MapMode.Write, HostEvent.devicePollWait,
        HostEvent.rendezvousReceived]⟩ :=
  ⟨by decide,
   (size_mismatch_no_partial_copy ℚ theContext.chem_potential_guess_buf_info
     [Command.beginComputePass] [(7 : ℚ)] [] (by decide)).1⟩

/-- Claim C8: For every usage intent containing neither the STORAGE nor the
UNIFORM flag, `BufferInfo::new` panics with the construction error and the
device creation log is exactly as before: no device or staging buffer was
created, so there is no partial allocation. -/
theorem invalid_usage_no_allocation (num_t sizeof_t : Nat) (device : Device)
    (label : Option String) (binding usage : Nat)
    (hs : usageContains usage BufferUsages.STORAGE = false)
    (hu : usageContains usage BufferUsages.UNIFORM = false) :
    BufferInfo.new num_t sizeof_t device label binding usage =
      (Except.error ConstructionError.invalidUsage, device) := by
  simp [BufferInfo.new, hs, hu]

/-- Witness for C8: `MAP_READ` is neither Storage nor Uniform intent and
construction on an empty device leaves the device empty. -/
theorem invalid_usage_no_allocation_witness :
    usageContains BufferUsages.MAP_READ BufferUsages.STORAGE = false ∧
    usageContains BufferUsages.MAP_READ BufferUsages.UNIFORM = false ∧
    BufferInfo.new 3 4 ⟨[]⟩ (some "bogus") 0 BufferUsages.MAP_READ =
      (Except.error ConstructionError.invalidUsage, ⟨[]⟩) :=
  ⟨rfl, rfl,
   invalid_usage_no_allocation 3 4 ⟨[]⟩ (some "bogus") 0
     BufferUsages.MAP_READ rfl rfl⟩

/-- Claim C10: When the driver reports a write-mapping error,
`set_uniform_buffer` returns the `MapFailed` error right after the
rendezvous: the trace contains no copy into the mapped region, no unmap
and no recorded staging-to-device copy, and both the staging contents and
the callers command encoder are returned exactly as they were. -/
theorem map_error_leaves_encoder_unchanged (T : Type) (info : BufferInfo)
    (encoder : List Command) (staging data : List T)
    (e : BufferAsyncError) :
    info.set_uniform_buffer (some e) encoder staging data =
      ⟨Except.error (TransferError.MapFailed e), staging, encoder,
       [HostEvent.mapAsyncRequested MapMode.Write, HostEvent.devicePollWait,
        HostEvent.rendezvousReceived]⟩ :=
  rfl

/-- Claim C2: A `set_uniform_buffer` call with data of the correct byte
length performs, in order: the write-mapping request, the unconditional
device poll, the rendezvous receive on the single-slot channel, the
verbatim copy of the data into the mapped region (the resulting staging
contents are exactly the data), the unmap, and only then the recording of
the staging-to-device copy appended to the callers command encoder.
Moreover in the density stage that staging-to-device copy for the
ChemicalPotential pair is recorded in the same submitted command sequence
as, and strictly before, the 32×32×1 kernel dispatch that consumes it. -/
theorem write_uniform_protocol :
    (∀ (T : Type) (info : BufferInfo) (encoder : List Command)
        (staging data : List T),
      data.length * info.sizeof_t = info.num_t * info.sizeof_t →
      info.set_uniform_buffer none encoder staging data =
        ⟨Except.ok (), data,
         encoder ++ [Command.copyBufferToBuffer info.staging_buffer.id 0
           info.shader_buffer.id 0 (info.num_t * info.sizeof_t)],
         [HostEvent.mapAsyncRequested MapMode.Write, HostEvent.devicePollWait,
          HostEvent.rendezvousReceived, HostEvent.copyIntoMapped,
          HostEvent.unmap, HostEvent.recordStagingToDeviceCopy]⟩) ∧
    (∀ (r : Option BufferAsyncError) (cb ca : List ℚ) (mu : ℚ),
      ∃ i j, i < j ∧
        (get_charge_density theContext ⟨none, r, cb, ca⟩ mu).submitted.get? i
          = some (Command.copyBufferToBuffer
              theContext.chem_potential_guess_buf_info.staging_buffer.id 0
              theContext.chem_potential_guess_buf_info.shader_buffer.id 0
              (1 * sizeof_f32)) ∧
        (get_charge_density theContext ⟨none, r, cb, ca⟩ mu).submitted.get? j
          = some (Command.dispatchWorkgroups 32 32 1)) := by
  constructor
  · intro T info encoder staging data h
    simp [BufferInfo.set_uniform_buffer, h]
  · intro r cb ca mu
    refine ⟨0, 4, by decide, ?_, ?_⟩ <;> rw [get_cd_submitted] <;> rfl

/-- Witness for C2: writing the one-element array `[5]` through the
ChemicalPotential pair. -/
theorem write_uniform_protocol_witness :
    [(5 : ℚ)].length * theContext.chem_potential_guess_buf_info.sizeof_t =
      theContext.chem_potential_guess_buf_info.num_t *
        theContext.chem_potential_guess_buf_info.sizeof_t ∧
    theContext.chem_potential_guess_buf_info.set_uniform_buffer none []
      [] [(5 : ℚ)] =
      ⟨Except.ok (), [(5 : ℚ)],
       [Command.copyBufferToBuffer
          theContext.chem_potential_guess_buf_info.staging_buffer.id 0
          theContext.chem_potential_guess_buf_info.shader_buffer.id 0
          (theContext.chem_potential_guess_buf_info.num_t *
            theContext.chem_potential_guess_buf_info.sizeof_t)],
       [HostEvent.mapAsyncRequested MapMode.Write, HostEvent.devicePollWait,
        HostEvent.rendezvousReceived, HostEvent.copyIntoMapped,
        HostEvent.unmap, HostEvent.recordStagingToDeviceCopy]⟩ :=
  ⟨rfl,
   write_uniform_protocol.1 ℚ theContext.chem_potential_guess_buf_info []
     [] [(5 : ℚ)] rfl⟩

/-- Claim C4: The orchestrator builds one bind group layout with exactly six
slots in fixed order — slot 0 SystemParameters (uniform), slot 1 KValue
(storage), slot 2 HamiltonianMatrix (storage), slot 3 EigenResult
(storage), slot 4 ChemicalPotential (uniform), slot 5 ChargeDensity
(storage) — the bind group binds the corresponding device buffers at those
slots, and the same layout and bind group are used unmodified by all three
compute pipelines, which share the shader module and differ only in entry
point; every stage binds that one bind group at index 0. -/
theorem shared_bind_group_layout :
    ∃ ctx, WgpuContext.new = Except.ok ctx ∧
      ctx.bind_group_layout =
        [⟨0, ShaderStages.COMPUTE, BufferBindingType.Uniform, false, none⟩,
         ⟨1, ShaderStages.COMPUTE, BufferBindingType.Storage false, false,
          none⟩,
         ⟨2, ShaderStages.COMPUTE, BufferBindingType.Storage false, false,
          none⟩,
         ⟨3, ShaderStages.COMPUTE, BufferBindingType.Storage false, false,
          none⟩,
         ⟨4, ShaderStages.COMPUTE, BufferBindingType.Uniform, false, none⟩,
         ⟨5, ShaderStages.COMPUTE, BufferBindingType.Storage false, false,
          none⟩] ∧
      ctx.bind_group =
        [⟨0, ctx.system_info_buffer.id⟩,
         ⟨1, ctx.k_values_buf_info.shader_buffer.id⟩,
         ⟨2, ctx.hamiltonian_buf_info.shader_buffer.id⟩,
         ⟨3, ctx.energy_eigen_buf_info.shader_buffer.id⟩,
         ⟨4, ctx.chem_potential_guess_buf_info.shader_buffer.id⟩,
         ⟨5, ctx.charge_density_buf_info.shader_buffer.id⟩] ∧
      ctx.k_grid_pipeline.layout = [ctx.bind_group_layout] ∧
      ctx.initial_eigen_pipeline.layout = [ctx.bind_group_layout] ∧
      ctx.calc_charge_density_pipeline.layout = [ctx.bind_group_layout] ∧
      ctx.k_grid_pipeline.module = ctx.initial_eigen_pipeline.module ∧
      ctx.initial_eigen_pipeline.module
        = ctx.calc_charge_density_pipeline.module ∧
      ctx.k_grid_pipeline.entry_point = some "compute_k_grid" ∧
      ctx.initial_eigen_pipeline.entry_point = some "calc_initial_eigen" ∧
      ctx.calc_charge_density_pipeline.entry_point
        = some "calc_charge_density" ∧
      Command.setBindGroup 0 ∈ (calc_k_grid ctx).submitted ∧
      Command.setBindGroup 0 ∈ (calc_initial_eigen ctx).submitted ∧
      ∀ (r : Option BufferAsyncError) (cb ca : List ℚ) (mu : ℚ),
        Command.setBindGroup 0 ∈
          (get_charge_density ctx ⟨none, r, cb, ca⟩ mu).submitted := by
  refine ⟨theContext, rfl, rfl, rfl, rfl, rfl, rfl, rfl, rfl, rfl, rfl, rfl,
    by decide, by decide, ?_⟩
  intro r cb ca mu
  rw [get_cd_submitted]
  decide

/-- Claim C5: Whenever `read_staging_buffer` returns successfully it returns
exactly `NUM_T` elements, never more and never fewer; in particular a
successful density stage always hands the host an array of length
262144 = 512 × 512. -/
theorem read_storage_exact_count :
    (∀ (T : Type) (info : BufferInfo) (dr : Option BufferAsyncError)
        (staging v : List T),
      (info.read_staging_buffer dr staging).1 = Except.ok v →
      v.length = info.num_t) ∧
    (∀ (oracle : DeviceOracle) (mu : ℚ) (arr : List ℚ),
      (get_charge_density theContext oracle mu).result = Except.ok arr →
      arr.length = 262144) := by
  constructor
  · intro T info dr staging v h
    obtain ⟨h1, h2⟩ := read_ok_inv info dr staging v h
    rw [h1, h2]
  · intro oracle mu arr h
    obtain ⟨w, r, cb, ca⟩ := oracle
    cases w with
    | some e =>
      have he : (get_charge_density theContext ⟨some e, r, cb, ca⟩
          mu).result =
          Except.error (RunPanic.unwrapFailed (TransferError.MapFailed e)) :=
        rfl
      rw [he] at h
      exact Except.noConfusion h
    | none =>
      have h2 : (match (theContext.charge_density_buf_info.read_staging_buffer
            r ca).1 with
          | Except.ok v => (Except.ok v : Except RunPanic (List ℚ))
          | Except.error e => Except.error (RunPanic.unwrapFailed e))
          = Except.ok arr := h
      cases hr : (theContext.charge_density_buf_info.read_staging_buffer
          r ca).1 with
      | ok v =>
        rw [hr] at h2
        injection h2 with h3
        obtain ⟨hv, hlen⟩ := read_ok_inv _ r ca v hr
        rw [← h3, hv]
        exact hlen.trans rfl
      | error e =>
        rw [hr] at h2
        exact Except.noConfusion h2

/-- Witness for C5: a one-element read on the ChemicalPotential pair and a
full-size density read both return their exact element counts. -/
theorem read_storage_exact_count_witness :
    (theContext.chem_potential_guess_buf_info.read_staging_buffer none
      [(5 : ℚ)]).1 = Except.ok [(5 : ℚ)] ∧
    [(5 : ℚ)].length = theContext.chem_potential_guess_buf_info.num_t ∧
    (get_charge_density theContext oracle0 0).result =
      Except.ok (List.replicate (512 * 512) (0 : ℚ)) ∧
    (List.replicate (512 * 512) (0 : ℚ)).length = 262144 := by
  have h1 : (theContext.chem_potential_guess_buf_info.read_staging_buffer
      none [(5 : ℚ)]).1 = Except.ok [(5 : ℚ)] := rfl
  have h3 : (get_charge_density theContext oracle0 0).result =
      Except.ok (List.replicate (512 * 512) (0 : ℚ)) := by
    have := get_cd_ok [] (List.replicate (512 * 512) (0 : ℚ)) 0
      (by rw [List.length_replicate])
    exact congrArg ChargeDensityRun.result this
  exact ⟨h1, read_storage_exact_count.1 ℚ _ none [(5 : ℚ)] [(5 : ℚ)] h1,
    h3, read_storage_exact_count.2 oracle0 0 _ h3⟩

/-- Claim C6: `set_uniform_buffer` and `read_staging_buffer` fail with the
`MapFailed` error if and only if the driver callback reports a mapping
error; in the density stage the error is propagated up and aborts the run
as a panic, with exactly one mapping request issued (no retry): the traces
of the failing calls each contain a single `mapAsyncRequested` of the
failing mode. -/
theorem map_failed_iff_driver_error :
    (∀ (T : Type) (info : BufferInfo) (dr : Option BufferAsyncError)
        (encoder : List Command) (staging data : List T)
        (e : BufferAsyncError),
      ((info.set_uniform_buffer dr encoder staging data).result =
        Except.error (TransferError.MapFailed e)) ↔ dr = some e) ∧
    (∀ (T : Type) (info : BufferInfo) (dr : Option BufferAsyncError)
        (staging : List T) (e : BufferAsyncError),
      ((info.read_staging_buffer dr staging).1 =
        Except.error (TransferError.MapFailed e)) ↔ dr = some e) ∧
    (∀ (r : Option BufferAsyncError) (cb ca : List ℚ) (mu : ℚ)
        (e : BufferAsyncError),
      (get_charge_density theContext ⟨some e, r, cb, ca⟩ mu).result =
        Except.error (RunPanic.unwrapFailed (TransferError.MapFailed e)) ∧
      (get_charge_density theContext ⟨some e, r, cb, ca⟩ mu).events =
        [HostEvent.mapAsyncRequested MapMode.Write, HostEvent.devicePollWait,
         HostEvent.rendezvousReceived] ∧
      (run ⟨some e, r, cb, ca⟩).result =
        Except.error (RunPanic.unwrapFailed (TransferError.MapFailed e))) ∧
    (∀ (cb ca : List ℚ) (mu : ℚ) (e : BufferAsyncError),
      (get_charge_density theContext ⟨none, some e, cb, ca⟩ mu).result =
        Except.error (RunPanic.unwrapFailed (TransferError.MapFailed e)) ∧
      (get_charge_density theContext ⟨none, some e, cb, ca⟩ mu).events =
        [HostEvent.mapAsyncRequested MapMode.Write, HostEvent.devicePollWait,
         HostEvent.rendezvousReceived, HostEvent.copyIntoMapped,
         HostEvent.unmap, HostEvent.recordStagingToDeviceCopy,
         HostEvent.submitCalled,
         HostEvent.mapAsyncRequested MapMode.Read, HostEvent.devicePollWait,
         HostEvent.rendezvousReceived] ∧
      (run ⟨none, some e, cb, ca⟩).result =
        Except.error (RunPanic.unwrapFailed (TransferError.MapFailed e))) := by
  refine ⟨?_, ?_, ?_, ?_⟩
  · intro T info dr encoder staging data e
    cases dr with
    | none =>
      constructor
      · intro hres
        exfalso
        by_cases hc : (data.length * info.sizeof_t ==
            info.num_t * info.sizeof_t) = true
        · have h0 : (info.set_uniform_buffer none encoder staging
              data).result = Except.ok () := by
            simp [BufferInfo.set_uniform_buffer, hc]
          rw [h0] at hres
          exact Except.noConfusion hres
        · have h0 : (info.set_uniform_buffer none encoder staging
              data).result = Except.error TransferError.SizeMismatch := by
            simp [BufferInfo.set_uniform_buffer, hc]
          rw [h0] at hres
          injection hres with h4
          exact TransferError.noConfusion h4
      · intro hds
        exact Option.noConfusion hds
    | some e2 =>
      have h0 : (info.set_uniform_buffer (some e2) encoder staging
          data).result = Except.error (TransferError.MapFailed e2) := rfl
      rw [h0]
      cases e
      cases e2
      simp
  · intro T info dr staging e
    cases dr with
    | none =>
      constructor
      · intro hres
        exfalso
        by_cases hc : (staging.length == info.num_t) = true
        · have h0 : (info.read_staging_buffer none staging).1 =
              Except.ok staging := by
            simp [BufferInfo.read_staging_buffer, hc]
          rw [h0] at hres
          exact Except.noConfusion hres
        · have h0 : (info.read_staging_buffer none staging).1 =
              Except.error TransferError.SizeMismatch := by
            simp [BufferInfo.read_staging_buffer, hc]
          rw [h0] at hres
          injection hres with h4
          exact TransferError.noConfusion h4
      · intro hds
        exact Option.noConfusion hds
    | some e2 =>
      have h0 : (info.read_staging_buffer (some e2) staging).1 =
          Except.error (TransferError.MapFailed e2) := rfl
      rw [h0]
      cases e
      cases e2
      simp
  · intro r cb ca mu e
    exact ⟨rfl, rfl, rfl⟩
  · intro cb ca mu e
    exact ⟨rfl, rfl, rfl⟩

/-- Counterexample to C3 as stated: in a fully successful density stage
there is no unconditional device wait between the submission and the
read-mapping request with which `read_staging_buffer` begins — the host
calls `read_staging_buffer` immediately after submitting, so no
host-blocking wait separates the submit from the readStorage call. -/
theorem density_wait_counterexample :
    ¬ waitSeparatesSubmitFromRead
        (get_charge_density theContext oracle0 0).events := by
  have h0 : oracle0 =
      (⟨none, none, [], List.replicate (512 * 512) 0⟩ : DeviceOracle) := rfl
  intro hall
  rw [h0, get_cd_ok [] (List.replicate (512 * 512) 0) 0
    (by rw [List.length_replicate])] at hall
  obtain ⟨k, hk1, hk2, _⟩ :=
    hall 6 (by decide) rfl 7 (by decide) (by decide) rfl
  omega

/-- Claim C3, amended: Each of the three stages records exactly one
32×32×1 dispatch in one command sequence that is submitted exactly once.
After the k-grid and eigensolve submissions the host immediately performs
an unconditional device wait before the stage returns (so before the next
stage begins).  In the density stage the host calls readStorage directly
after the single submission; readStorage itself then performs the mapping
request followed by the unconditional device wait before the data is
copied out, so the host still blocks on device completion before touching
the data, but inside readStorage rather than before calling it. -/
theorem stage_dispatch_and_wait (cb arr : List ℚ) (mu : ℚ)
    (h : arr.length = 262144) :
    calc_k_grid theContext =
      ⟨[Command.beginComputePass,
        Command.setPipeline (some "compute_k_grid"),
        Command.setBindGroup 0, Command.dispatchWorkgroups 32 32 1,
        Command.endComputePass],
       [HostEvent.submitCalled, HostEvent.devicePollWait]⟩ ∧
    calc_initial_eigen theContext =
      ⟨[Command.beginComputePass,
        Command.setPipeline (some "calc_initial_eigen"),
        Command.setBindGroup 0, Command.dispatchWorkgroups 32 32 1,
        Command.endComputePass],
       [HostEvent.submitCalled, HostEvent.devicePollWait]⟩ ∧
    (get_charge_density theContext ⟨none, none, cb, arr⟩ mu).submitted.count
      (Command.dispatchWorkgroups 32 32 1) = 1 ∧
    (get_charge_density theContext ⟨none, none, cb, arr⟩ mu).events =
      [HostEvent.mapAsyncRequested MapMode.Write, HostEvent.devicePollWait,
       HostEvent.rendezvousReceived, HostEvent.copyIntoMapped,
       HostEvent.unmap, HostEvent.recordStagingToDeviceCopy,
       HostEvent.submitCalled,
       HostEvent.mapAsyncRequested MapMode.Read, HostEvent.devicePollWait,
       HostEvent.rendezvousReceived, HostEvent.copyFromMapped,
       HostEvent.unmap] ∧
    (get_charge_density theContext ⟨none, none, cb, arr⟩ mu).events.count
      HostEvent.submitCalled = 1 ∧
    (run ⟨none, none, cb, arr⟩).events =
      [HostEvent.submitCalled, HostEvent.devicePollWait,
       HostEvent.submitCalled, HostEvent.devicePollWait,
       HostEvent.mapAsyncRequested MapMode.Write, HostEvent.devicePollWait,
       HostEvent.rendezvousReceived, HostEvent.copyIntoMapped,
       HostEvent.unmap, HostEvent.recordStagingToDeviceCopy,
       HostEvent.submitCalled,
       HostEvent.mapAsyncRequested MapMode.Read, HostEvent.devicePollWait,
       HostEvent.rendezvousReceived, HostEvent.copyFromMapped,
       HostEvent.unmap] := by
  refine ⟨rfl, rfl, ?_, ?_, ?_, ?_⟩
  · rw [get_cd_ok cb arr mu h]
    rfl
  · rw [get_cd_ok cb arr mu h]
  · rw [get_cd_ok cb arr mu h]
    rfl
  · rw [run_ok cb arr h]

/-- Witness for the amended C3, at the all-zero full-size density
array. -/
theorem stage_dispatch_and_wait_witness :
    (List.replicate (512 * 512) (0 : ℚ)).length = 262144 ∧
    (get_charge_density theContext
      ⟨none, none, [], List.replicate (512 * 512) (0 : ℚ)⟩ 0).events =
      [HostEvent.mapAsyncRequested MapMode.Write, HostEvent.devicePollWait,
       HostEvent.rendezvousReceived, HostEvent.copyIntoMapped,
       HostEvent.unmap, HostEvent.recordStagingToDeviceCopy,
       HostEvent.submitCalled,
       HostEvent.mapAsyncRequested MapMode.Read, HostEvent.devicePollWait,
       HostEvent.rendezvousReceived, HostEvent.copyFromMapped,
       HostEvent.unmap] := by
  have hl : (List.replicate (512 * 512) (0 : ℚ)).length = 262144 := by
    rw [List.length_replicate]
  exact ⟨hl,
    (stage_dispatch_and_wait [] (List.replicate (512 * 512) (0 : ℚ)) 0
      hl).2.2.2.1⟩

/-- Counterexample to C9 as stated: the output of a fully successful run
is not limited to the three report lines — its first line is the
system-configuration banner. -/
theorem run_output_counterexample :
    ¬ onlyReportLines (run oracle0).output := by
  have h0 : oracle0 =
      (⟨none, none, [], List.replicate (512 * 512) 0⟩ : DeviceOracle) := rfl
  intro hall
  rw [h0, run_ok [] (List.replicate (512 * 512) 0)
    (by rw [List.length_replicate])] at hall
  rcases hall OutputLine.systemConfigHeader (List.mem_cons_self _ _) with
    ⟨n, hn⟩ | ⟨m, hm⟩ | ⟨d, hd⟩
  · exact OutputLine.noConfusion hn
  · exact OutputLine.noConfusion hm
  · exact OutputLine.noConfusion hd

/-- Claim C9, amended: A fully successful run prints, in order: the
system-configuration banner (header line plus the debug print of the
precomputed system parameters), then the count of grid points, the
chemical-potential value used (0), and the scalar mean charge density
computed as the arithmetic mean — sum divided by length — of the
ChargeDensity array; nothing else is printed. -/
theorem run_output_amended (cb arr : List ℚ) (h : arr.length = 262144) :
    (run ⟨none, none, cb, arr⟩).output =
      [OutputLine.systemConfigHeader, OutputLine.systemConfigDebug,
       OutputLine.numKPoints arr.length,
       OutputLine.tryingChemPotential 0,
       OutputLine.chargeDensity (arr.sum / (arr.length : ℚ))] ∧
    (run ⟨none, none, cb, arr⟩).result = Except.ok () := by
  constructor <;> rw [run_ok cb arr h]

/-- Witness for the amended C9, at the all-zero full-size density
array. -/
theorem run_output_amended_witness :
    (List.replicate (512 * 512) (0 : ℚ)).length = 262144 ∧
    (run ⟨none, none, [], List.replicate (512 * 512) (0 : ℚ)⟩).output =
      [OutputLine.systemConfigHeader, OutputLine.systemConfigDebug,
       OutputLine.numKPoints (List.replicate (512 * 512) (0 : ℚ)).length,
       OutputLine.tryingChemPotential 0,
       OutputLine.chargeDensity
         ((List.replicate (512 * 512) (0 : ℚ)).sum /
           ((List.replicate (512 * 512) (0 : ℚ)).length : ℚ))] := by
  have hl : (List.replicate (512 * 512) (0 : ℚ)).length = 262144 := by
    rw [List.length_replicate]
  exact ⟨hl,
    (run_output_amended [] (List.replicate (512 * 512) (0 : ℚ)) hl).1⟩

end HartreeFock
